import Mathlib

/-!
Verification of the text-to-dataset-creation service core:
the best-effort JSON extraction routine `extract_json` shared by the
three task endpoints, the prompt builders, and the thin request handlers
of `convert.py` and `druid_service.py`.

Strings from the source are modelled as `List Char`; parsed JSON string
contents are modelled as lists of Unicode code points (`List Nat`), which
lets the model mirror Python's handling of `\uXXXX` escapes, including
surrogate pairs. Machine behaviour of `json.loads` (strict mode, as used
by the source) is modelled by the recursive-descent parser `json_loads`.
-/

/-- A JSON value as produced by Python's `json.loads`: objects keep
insertion order as association lists, numbers keep their lexical parts
(integer part, fraction digits, exponent) so that no floating-point
semantics is needed, and the Python-specific constants `NaN`,
`Infinity`, `-Infinity` are representable. -/
inductive Json where
  | null
  | bool (b : Bool)
  | num (i : Int) (frac : List Char) (ex : Option Int)
  | nan
  | inf (neg : Bool)
  | str (s : List Nat)
  | arr (xs : List Json)
  | obj (kvs : List (List Nat × Json))
deriving Repr

/-- Is the value a JSON object (a Python `dict`)? -/
def Json.isObj : Json → Bool
  | .obj _ => true
  | _ => false

/-- Python truthiness of a JSON value (`bool(x)` for the decoded value):
empty containers, empty strings, zero and `None`/`False` are falsy. -/
def pyTruthy : Json → Bool
  | .null => false
  | .bool b => b
  | .num i frac _ => !(decide (i = 0) && frac.all (fun c => c = '0'))
  | .nan => true
  | .inf _ => true
  | .str s => !s.isEmpty
  | .arr xs => !xs.isEmpty
  | .obj kvs => !kvs.isEmpty

/-- Does a JSON object carry the given key? -/
def hasKey (j : Json) (key : List Nat) : Bool :=
  match j with
  | .obj kvs => kvs.any (fun p => p.1 = key)
  | _ => false

/-- Code points of a Lean string literal, for JSON string contents. -/
def codes (s : String) : List Nat := s.data.map Char.toNat

/-- Characters of a Lean string literal. -/
def chars (s : String) : List Char := s.data

/-- JSON whitespace as accepted by Python's `json` module. -/
def isWs (c : Char) : Bool := c = ' ' || c = '\t' || c = '\n' || c = '\r'

/-- Skip leading JSON whitespace. -/
def skipWs : List Char → List Char
  | [] => []
  | c :: cs => if isWs c then skipWs cs else c :: cs

/-- Value of one hexadecimal digit. -/
def hexVal (c : Char) : Option Nat :=
  if '0' ≤ c ∧ c ≤ '9' then some (c.toNat - 48)
  else if 'a' ≤ c ∧ c ≤ 'f' then some (c.toNat - 87)
  else if 'A' ≤ c ∧ c ≤ 'F' then some (c.toNat - 55)
  else none

/-- Value of a 4-digit hexadecimal escape body. -/
def hex4 (h1 h2 h3 h4 : Char) : Option Nat :=
  match hexVal h1, hexVal h2, hexVal h3, hexVal h4 with
  | some a, some b, some c, some d => some (a * 4096 + b * 256 + c * 16 + d)
  | _, _, _, _ => none

/-- Code point of a single-character JSON escape. -/
def escCode (c : Char) : Option Nat :=
  if c = '"' then some 34
  else if c = '\\' then some 92
  else if c = '/' then some 47
  else if c = 'b' then some 8
  else if c = 'f' then some 12
  else if c = 'n' then some 10
  else if c = 'r' then some 13
  else if c = 't' then some 9
  else none

/-- Parse the body of a JSON string (after the opening quote), as
Python's strict `scanstring` does: raw characters below 0x20 are
rejected, `\uXXXX` escapes are decoded with surrogate-pair joining,
a high surrogate followed by `\u` requires valid hex, and lone
surrogates are kept as code points. -/
def parseJString : Nat → List Char → Option (List Nat × List Char)
  | 0, _ => none
  | _ + 1, [] => none
  | fuel + 1, c :: cs =>
    if c = '"' then some ([], cs)
    else if c = '\\' then
      match cs with
      | 'u' :: h1 :: h2 :: h3 :: h4 :: cs2 =>
        match hex4 h1 h2 h3 h4 with
        | none => none
        | some u1 =>
          if 0xD800 ≤ u1 ∧ u1 ≤ 0xDBFF then
            match cs2 with
            | '\\' :: 'u' :: g1 :: g2 :: g3 :: g4 :: cs3 =>
              match hex4 g1 g2 g3 g4 with
              | none => none
              | some u2 =>
                if 0xDC00 ≤ u2 ∧ u2 ≤ 0xDFFF then
                  match parseJString fuel cs3 with
                  | some (s, r) =>
                    some ((0x10000 + (u1 - 0xD800) * 0x400 + (u2 - 0xDC00)) :: s, r)
                  | none => none
                else
                  match parseJString fuel cs2 with
                  | some (s, r) => some (u1 :: s, r)
                  | none => none
            | _ =>
              match parseJString fuel cs2 with
              | some (s, r) => some (u1 :: s, r)
              | none => none
          else
            match parseJString fuel cs2 with
            | some (s, r) => some (u1 :: s, r)
            | none => none
      | e :: cs2 =>
        match escCode e with
        | some u =>
          match parseJString fuel cs2 with
          | some (s, r) => some (u :: s, r)
          | none => none
        | none => none
      | [] => none
    else if c.toNat < 32 then none
    else
      match parseJString fuel cs with
      | some (s, r) => some (c.toNat :: s, r)
      | none => none

/-- Numeric value of a digit string. -/
def natOfDigits (ds : List Char) : Nat :=
  ds.foldl (fun a c => a * 10 + (c.toNat - 48)) 0

/-- Parse a JSON number following Python's `NUMBER_RE`:
`(-?(0|[1-9]\d*))(\.\d+)?([eE][-+]?\d+)?`; the optional fraction and
exponent groups are dropped (not consumed) when malformed. -/
def parseNumber (cs : List Char) : Option (Json × List Char) :=
  let sgn : Bool × List Char :=
    match cs with
    | '-' :: r => (true, r)
    | _ => (false, cs)
  match sgn.2 with
  | [] => none
  | c :: r =>
    if ¬ c.isDigit then none
    else
      let ip : List Char × List Char :=
        if c = '0' then ([c], r) else (c :: r).span Char.isDigit
      let i : Int :=
        if sgn.1 then -(natOfDigits ip.1 : Int) else (natOfDigits ip.1 : Int)
      let fr : List Char × List Char :=
        match ip.2 with
        | '.' :: r2 =>
          let d := r2.span Char.isDigit
          if d.1 = [] then ([], ip.2) else (d.1, d.2)
        | _ => ([], ip.2)
      let exr : Option Int × List Char :=
        match fr.2 with
        | e :: r3 =>
          if e = 'e' ∨ e = 'E' then
            let se : Bool × List Char :=
              match r3 with
              | '+' :: r4 => (false, r4)
              | '-' :: r4 => (true, r4)
              | _ => (false, r3)
            let d := se.2.span Char.isDigit
            if d.1 = [] then (none, fr.2)
            else
              (some (if se.1 then -(natOfDigits d.1 : Int) else (natOfDigits d.1 : Int)), d.2)
          else (none, fr.2)
        | [] => (none, fr.2)
      some (Json.num i fr.1 exr.1, exr.2)

/-- Strip an expected literal word from the head of the input. -/
def stripLit : List Char → List Char → Option (List Char)
  | [], cs => some cs
  | _ :: _, [] => none
  | l :: ls, c :: cs => if c = l then stripLit ls cs else none

mutual

/-- Parse one JSON value at the head of the input (fuelled recursion;
the fuel only bounds nesting depth and is chosen large enough at the
top level). Dispatch mirrors Python's C scanner: objects, arrays,
strings, the literals `true`/`false`/`null`, the constants `NaN`,
`Infinity`, `-Infinity`, and numbers. -/
def parseValue : Nat → List Char → Option (Json × List Char)
  | 0, _ => none
  | fuel + 1, cs =>
    match cs with
    | '{' :: r =>
      (match skipWs r with
       | '}' :: r2 => some (Json.obj [], r2)
       | cs2 =>
         match parsePairs fuel cs2 with
         | some (kvs, r2) => some (Json.obj kvs, r2)
         | none => none)
    | '[' :: r =>
      (match skipWs r with
       | ']' :: r2 => some (Json.arr [], r2)
       | cs2 =>
         match parseItems fuel cs2 with
         | some (xs, r2) => some (Json.arr xs, r2)
         | none => none)
    | '"' :: r =>
      (match parseJString (fuel + 1) r with
       | some (s, r2) => some (Json.str s, r2)
       | none => none)
    | _ =>
      match stripLit (chars "true") cs with
      | some r => some (Json.bool true, r)
      | none =>
        match stripLit (chars "false") cs with
        | some r => some (Json.bool false, r)
        | none =>
          match stripLit (chars "null") cs with
          | some r => some (Json.null, r)
          | none =>
            match stripLit (chars "NaN") cs with
            | some r => some (Json.nan, r)
            | none =>
              match stripLit (chars "Infinity") cs with
              | some r => some (Json.inf false, r)
              | none =>
                match stripLit (chars "-Infinity") cs with
                | some r => some (Json.inf true, r)
                | none => parseNumber cs

/-- Parse the members of an object after `{` (first key expected at the
head): strictly quoted keys, `:`, value, then `,` (no trailing comma)
or `}`. -/
def parsePairs : Nat → List Char → Option (List (List Nat × Json) × List Char)
  | 0, _ => none
  | fuel + 1, cs =>
    match cs with
    | '"' :: r =>
      (match parseJString (fuel + 1) r with
       | some (key, r1) =>
         (match skipWs r1 with
          | ':' :: r2 =>
            (match parseValue fuel (skipWs r2) with
             | some (v, r3) =>
               (match skipWs r3 with
                | ',' :: r4 =>
                  (match parsePairs fuel (skipWs r4) with
                   | some (kvs, r5) => some ((key, v) :: kvs, r5)
                   | none => none)
                | '}' :: r4 => some ([(key, v)], r4)
                | _ => none)
             | none => none)
          | _ => none)
       | none => none)
    | _ => none

/-- Parse the elements of an array after `[` (first element expected at
the head). -/
def parseItems : Nat → List Char → Option (List Json × List Char)
  | 0, _ => none
  | fuel + 1, cs =>
    match parseValue fuel cs with
    | some (v, r1) =>
      (match skipWs r1 with
       | ',' :: r2 =>
         (match parseItems fuel (skipWs r2) with
          | some (xs, r3) => some (v :: xs, r3)
          | none => none)
       | ']' :: r2 => some ([v], r2)
       | _ => none)
    | none => none

end

/-- Model of Python's `json.loads` in strict mode: skip leading
whitespace, parse one value, skip trailing whitespace, and fail with
`Extra data` when input remains. `none` models a raised
`json.JSONDecodeError`. -/
def json_loads (cs : List Char) : Option Json :=
  match parseValue (2 * cs.length + 2) (skipWs cs) with
  | some (v, r) => if skipWs r = [] then some v else none
  | none => none

/-- Python `str.find` for a single character: index of the first
occurrence, or `-1`. -/
def strFind (l : List Char) (c : Char) : Int :=
  match l with
  | [] => -1
  | x :: xs =>
    if x = c then 0
    else if strFind xs c = -1 then -1 else strFind xs c + 1

/-- Python `str.rfind` for a single character: index of the last
occurrence, or `-1`. -/
def strRfind (l : List Char) (c : Char) : Int :=
  match l with
  | [] => -1
  | x :: xs =>
    if strRfind xs c = -1 then (if x = c then 0 else -1) else strRfind xs c + 1

/-- Python slicing `text[a:b]` for the non-negative indices produced by
`find`/`rfind + 1` in `extract_json` (out-of-range values clamp). -/
def pySlice (l : List Char) (a b : Int) : List Char :=
  (l.take b.toNat).drop a.toNat

/-- The inference collaborator `client.text_generation`: returns the raw
reply text, or fails with an exception whose `str(e)` rendering is
carried as code points. -/
def AiClient : Type := List Char → Except (List Nat) (List Char)

/-- An HTTP response: status code and JSON body, as produced by
`JSONResponse(content=..., status_code=...)` (status defaults to 200). -/
structure Response where
  status : Nat
  body : Json

/-- Lowercase hexadecimal digit. -/
def hexDigitChar (n : Nat) : Char :=
  Char.ofNat (if n < 10 then 48 + n else 87 + n)

/-- Four lowercase hexadecimal digits. -/
def hexStr4 (n : Nat) : List Char :=
  [hexDigitChar (n / 4096 % 16), hexDigitChar (n / 256 % 16),
   hexDigitChar (n / 16 % 16), hexDigitChar (n % 16)]

/-- `json.dumps` escaping of one code point with `ensure_ascii=True`
(the default used by the source): short escapes, `\uXXXX` for other
control and non-ASCII characters, surrogate pairs above 0xFFFF. -/
def escapeCodeAscii (u : Nat) : List Char :=
  if u = 34 then ['\\', '"']
  else if u = 92 then ['\\', '\\']
  else if u = 8 then ['\\', 'b']
  else if u = 9 then ['\\', 't']
  else if u = 10 then ['\\', 'n']
  else if u = 12 then ['\\', 'f']
  else if u = 13 then ['\\', 'r']
  else if u < 32 then '\\' :: 'u' :: hexStr4 u
  else if u < 127 then [Char.ofNat u]
  else if u < 65536 then '\\' :: 'u' :: hexStr4 u
  else
    let v := u - 65536
    '\\' :: 'u' :: hexStr4 (55296 + v / 1024) ++ '\\' :: 'u' :: hexStr4 (56320 + v % 1024)

/-- Serialize a JSON string with quotes and escaping. -/
def dumpJString (s : List Nat) : List Char :=
  '"' :: (s.map escapeCodeAscii).flatten ++ ['"']

/-- Lexical rendering of a JSON number (floats are rendered from their
kept lexical parts rather than via binary floating point). -/
def numChars (i : Int) (f : List Char) (e : Option Int) : List Char :=
  (toString i).data ++ (if f = [] then [] else '.' :: f) ++
    (match e with
     | some x => 'e' :: (toString x).data
     | none => [])

mutual

/-- `json.dumps(v)` with default separators `", "` and `": "`. -/
def dumps : Json → List Char
  | .null => chars "null"
  | .bool true => chars "true"
  | .bool false => chars "false"
  | .num i f e => numChars i f e
  | .nan => chars "NaN"
  | .inf false => chars "Infinity"
  | .inf true => chars "-Infinity"
  | .str s => dumpJString s
  | .arr xs => '[' :: dumpsItems xs
  | .obj kvs => '{' :: dumpsPairs kvs

/-- Elements of an array, compact form, with the closing bracket. -/
def dumpsItems : List Json → List Char
  | [] => [']']
  | [x] => dumps x ++ [']']
  | x :: y :: xs => dumps x ++ ',' :: ' ' :: dumpsItems (y :: xs)

/-- Members of an object, compact form, with the closing brace. -/
def dumpsPairs : List (List Nat × Json) → List Char
  | [] => ['}']
  | [(key, v)] => dumpJString key ++ ':' :: ' ' :: (dumps v ++ ['}'])
  | (key, v) :: p :: kvs =>
    dumpJString key ++ ':' :: ' ' :: (dumps v ++ ',' :: ' ' :: dumpsPairs (p :: kvs))

end

/-- Indentation prefix at a nesting level for `indent=2`. -/
def indentN (lvl : Nat) : List Char := List.replicate (2 * lvl) ' '

mutual

/-- `json.dumps(v, indent=2)` at a nesting level: multi-line rendering
with item separator `","` + newline and key separator `": "`; empty
containers stay on one line. -/
def dumps2 : Nat → Json → List Char
  | _, .null => chars "null"
  | _, .bool true => chars "true"
  | _, .bool false => chars "false"
  | _, .num i f e => numChars i f e
  | _, .nan => chars "NaN"
  | _, .inf false => chars "Infinity"
  | _, .inf true => chars "-Infinity"
  | _, .str s => dumpJString s
  | _, .arr [] => chars "[]"
  | lvl, .arr (x :: xs) => '[' :: '\n' :: (indentN (lvl + 1) ++ dumps2Items lvl (x :: xs))
  | _, .obj [] => chars "\x7b\x7d"
  | lvl, .obj (p :: kvs) => '{' :: '\n' :: (indentN (lvl + 1) ++ dumps2Pairs lvl (p :: kvs))

/-- Elements of a non-empty array, indented form, with the closing
bracket on its own line. -/
def dumps2Items : Nat → List Json → List Char
  | _, [] => []
  | lvl, [x] => dumps2 (lvl + 1) x ++ '\n' :: (indentN lvl ++ [']'])
  | lvl, x :: y :: xs =>
    dumps2 (lvl + 1) x ++ ',' :: '\n' :: (indentN (lvl + 1) ++ dumps2Items lvl (y :: xs))

/-- Members of a non-empty object, indented form, with the closing
brace on its own line. -/
def dumps2Pairs : Nat → List (List Nat × Json) → List Char
  | _, [] => []
  | lvl, [(key, v)] =>
    dumpJString key ++ ':' :: ' ' :: (dumps2 (lvl + 1) v ++ '\n' :: (indentN lvl ++ ['}']))
  | lvl, (key, v) :: p :: kvs =>
    dumpJString key ++ ':' :: ' ' ::
      (dumps2 (lvl + 1) v ++ ',' :: '\n' :: (indentN (lvl + 1) ++ dumps2Pairs lvl (p :: kvs)))

end

namespace DruidService

/-- `extract_json` (druid_service.py:83-93): locate the first `{` and
the last `}`, slice, strictly parse; any `JSONDecodeError` (modelled by
`json_loads` returning `none`) falls through to the empty object. -/
def extract_json (text : List Char) : Json :=
  let json_start := strFind text '{'
  let json_end := strRfind text '}' + 1
  if json_start ≠ -1 ∧ json_end ≠ -1 then
    match json_loads (pySlice text json_start json_end) with
    | some v => v
    | none => Json.obj []
  else Json.obj []

/-- The prompt template of `suggest_druid_rollups_and_ingestion_spec`
(druid_service.py:18-73), with the payload serialized once with
`indent=2` and once compactly inside the inline `ioConfig` data. -/
def rollups_prompt (event_or_schema : Json) : List Char :=
  chars "\n    Analyze the following JSON event schema and suggest appropriate rollups for Druid.\n    Also, generate a valid Druid ingestion spec template.\n\n    **Your tasks:**\n    1. Suggest rollups for common aggregations (e.g., hourly, daily).\n    2. Identify numeric fields for metrics aggregation.\n    3. Identify non-numeric fields as dimensions.\n    4. Detect timestamp fields and use them in the `timestampSpec`.\n\n    **Event Schema:**\n    " ++
  dumps2 0 event_or_schema ++
  chars "\n\n    **Expected JSON Response:**\n    \x7b\n        \"rollup_suggestions\": [\"hourly_rollup\", \"daily_rollup\", \"custom_rollup\"],\n        \"druid_ingestion_spec\": \x7b\n            \"type\": \"index\",\n            \"spec\": \x7b\n                \"dataSchema\": \x7b\n                    \"dataSource\": \"dynamic_data_source\",\n                    \"timestampSpec\": \x7b\n                        \"column\": \"timestamp_field\",\n                        \"format\": \"auto\"\n                    \x7d,\n                    \"dimensionsSpec\": \x7b\n                        \"dimensions\": [\"dim1\", \"dim2\"]\n                    \x7d,\n                    \"metricsSpec\": [\n                        \x7b\"type\": \"doubleSum\", \"name\": \"metric1\", \"fieldName\": \"metric1\"\x7d\n                    ],\n                    \"granularitySpec\": \x7b\n                        \"type\": \"uniform\",\n                        \"segmentGranularity\": \"hour\",\n                        \"queryGranularity\": \"none\"\n                    \x7d\n                \x7d,\n                \"ioConfig\": \x7b\n                    \"type\": \"index\",\n                    \"inputSource\": \x7b\n                        \"type\": \"inline\",\n                        \"data\": [" ++
  dumps event_or_schema ++
  chars "]\n                    \x7d,\n                    \"inputFormat\": \x7b\n                        \"type\": \"json\"\n                    \x7d\n                \x7d,\n                \"tuningConfig\": \x7b\n                    \"type\": \"index\",\n                    \"maxRowsInMemory\": 100000,\n                    \"maxRowsPerSegment\": 5000000\n                \x7d\n            \x7d\n        \x7d\n    \x7d\n    "

/-- `suggest_druid_rollups_and_ingestion_spec` (druid_service.py:16-80):
build the prompt, call the model inside `try`, extract JSON from the
reply; any exception from the call is returned as an error object. The
`print(response)` debug aid has no effect on the returned value. -/
def suggest_druid_rollups_and_ingestion_spec (client : AiClient)
    (event_or_schema : Json) : Json :=
  match client (rollups_prompt event_or_schema) with
  | .ok response => extract_json response
  | .error e => Json.obj [(codes "error", Json.str e)]

end DruidService

namespace Convert

/-- `extract_json` (convert.py:31-41): locate the first `{` and the
last `}`, slice, strictly parse; any `JSONDecodeError` (modelled by
`json_loads` returning `none`) falls through to the empty object. -/
def extract_json (text : List Char) : Json :=
  let json_start := strFind text '{'
  let json_end := strRfind text '}' + 1
  if json_start ≠ -1 ∧ json_end ≠ -1 then
    match json_loads (pySlice text json_start json_end) with
    | some v => v
    | none => Json.obj []
  else Json.obj []

/-- `get_ai_response` (convert.py:23-29): send the prompt to the model
and extract JSON from the reply; any exception is caught and returned
as `{"error": str(e)}`. -/
def get_ai_response (client : AiClient) (prompt : List Char) : Json :=
  match client prompt with
  | .ok response => extract_json response
  | .error e => Json.obj [(codes "error", Json.str e)]

/-- The prompt template of `identify_fields` (convert.py:45-64). -/
def identify_fields_prompt (event_or_schema : Json) : List Char :=
  chars "\n    Analyze the following JSON event and identify key fields **only if they exist**.\n\n    **Identification Rules:** \n    - **Timestamp Fields:** Identify fields that contain date-time values.\n    - **De-duplication Key:** Identify a unique identifier.\n    - **PII Fields:** Identify PII fields like email, phone, or name.\n\n    **Strict Constraints:** Omit fields if not applicable.\n\n    **Return JSON Format:** \n    \x7b\n        \"timestamp_fields\": [\"field1\", \"field2\"],\n        \"de_duplication_key\": \"field_name\",\n        \"pii_fields\": [\"field1\", \"field2\"]\n    \x7d\n\n    **Event Data:**\n    " ++
  dumps2 0 event_or_schema ++
  chars "\n    "

/-- `identify_fields` (convert.py:43-65): build the prompt and query
the model. -/
def identify_fields (client : AiClient) (event_or_schema : Json) : Json :=
  get_ai_response client (identify_fields_prompt event_or_schema)

/-- `analyze_event` (convert.py:67-75): reject non-object bodies with
400 `{"error": "Invalid JSON input"}`, otherwise run field
identification and return its result with status 200. -/
def analyze_event (client : AiClient) (request_data : Json) : Response :=
  if ¬ request_data.isObj then
    ⟨400, Json.obj [(codes "error", Json.str (codes "Invalid JSON input"))]⟩
  else
    ⟨200, identify_fields client request_data⟩

/-- The prompt template of `suggest_dataset_name` (convert.py:81-100),
including the source's verbatim text (with its mojibake sequence and
truncated final rule line). -/
def suggest_dataset_name_prompt (event_or_schema : Json) : List Char :=
  chars "\n    You are an expert in data modeling and domain analysis. Based on the given event schema, analyze the data to identify its domain (e.g., user activity, IoT telemetry, financial transactions, product catalog, etc.). Generate 5 unique and user-friendly dataset names that reflect the data's purpose and domain.\n\n    **Rules:**\n    - Do not concatenate all field names into long names. Instead, focus on understanding the schema and the broader context.\n    - Suggest names that are concise, descriptive, and easy to remember.\n    - Ensure the names are relevant to common data categories such as logs, events, metrics, profiles, transactions, etc.\n    - Analyze the structure and key properties dynamically to understand what the dataset might represent (e.g., user interactions, system metrics, content usage).\n    - Identify key patterns, themes, and relationships in the data **without relying on specific field names**, as the event structure may vary.\n    - Focus on clarity, simplicity, and real-world relevance based on the dataâ€™s potential purpose.\n    - Avoid mechanically concatenating all keys or unrelated terms. Instead, aim for thoughtful, human-like naming that reflec\n\n    **Return JSON in this format:**\n    \x7b\n        \"dataset_names\": [\"name1\", \"name2\", \"name3\", \"name4\", \"name5\"]\n    \x7d\n\n    **Event Schema:**\n    " ++
  dumps2 0 event_or_schema ++
  chars "\n    "

/-- `suggest_dataset_name` (convert.py:77-102): query the model and
return the extraction result, substituting
`{"dataset_names": ["Default_Dataset"]}` when the result is falsy
(Python `response or default`). -/
def suggest_dataset_name (client : AiClient) (event_or_schema : Json) : Response :=
  let response := get_ai_response client (suggest_dataset_name_prompt event_or_schema)
  ⟨200, if pyTruthy response then response
        else Json.obj [(codes "dataset_names", Json.arr [Json.str (codes "Default_Dataset")])]⟩

/-- `suggest_druid_rollups` (convert.py:104-111): delegate to the Druid
service and return its result with status 200. -/
def suggest_druid_rollups (client : AiClient) (event_or_schema : Json) : Response :=
  ⟨200, DruidService.suggest_druid_rollups_and_ingestion_spec client event_or_schema⟩

end Convert

/-- The three task kinds of the service. -/
inductive TaskKind where
  | fieldIdentification
  | datasetNaming
  | rollupSuggestion

/-- The prompt builder: pure dispatch to the three template renderers. -/
def buildPrompt : TaskKind → Json → List Char
  | .fieldIdentification, payload => Convert.identify_fields_prompt payload
  | .datasetNaming, payload => Convert.suggest_dataset_name_prompt payload
  | .rollupSuggestion, payload => DruidService.rollups_prompt payload

/-! ## Lemmas about `strFind` and `strRfind` -/

theorem strFind_cons_self (c : Char) (l : List Char) : strFind (c :: l) c = 0 := by
  simp [strFind]

theorem strFind_not_mem {l : List Char} {c : Char} (h : c ∉ l) : strFind l c = -1 := by
  induction l with
  | nil => rfl
  | cons x xs ih =>
    simp only [List.mem_cons, not_or] at h
    simp [strFind, Ne.symm h.1, ih h.2]

theorem strFind_append_zero {A l : List Char} {c : Char} (hA : c ∉ A)
    (h0 : strFind l c = 0) : strFind (A ++ l) c = A.length := by
  induction A with
  | nil => simpa using h0
  | cons a A ih =>
    simp only [List.mem_cons, not_or] at hA
    have h1 := ih hA.2
    have h2 : ¬ (a = c) := Ne.symm hA.1
    have h3 : ¬ ((A.length : Int) = -1) := by omega
    simp only [List.cons_append, strFind, List.length_cons, List.append_eq]
    rw [if_neg h2, h1, if_neg h3]
    push_cast
    ring

theorem strFind_drop {l : List Char} {c : Char} (h : strFind l c ≠ -1) :
    ∃ (a : Nat) (t : List Char), strFind l c = (a : Int) ∧ l.drop a = c :: t := by
  induction l with
  | nil => simp [strFind] at h
  | cons x xs ih =>
    by_cases hx : x = c
    · subst hx
      exact ⟨0, xs, strFind_cons_self x xs, rfl⟩
    · have hne : ¬ x = c := hx
      by_cases hr : strFind xs c = -1
      · simp [strFind, hne, hr] at h
      · obtain ⟨a, t, ha, hd⟩ := ih hr
        refine ⟨a + 1, t, ?_, ?_⟩
        · simp only [strFind]
          rw [if_neg hne, if_neg hr, ha]
          push_cast
          ring
        · simpa using hd

theorem strRfind_not_mem {l : List Char} {c : Char} (h : c ∉ l) : strRfind l c = -1 := by
  induction l with
  | nil => rfl
  | cons x xs ih =>
    simp only [List.mem_cons, not_or] at h
    simp [strRfind, ih h.2, Ne.symm h.1]

theorem strRfind_append_right {l B : List Char} {c : Char} (hB : c ∉ B) :
    strRfind (l ++ B) c = strRfind l c := by
  induction l with
  | nil => simpa using strRfind_not_mem hB
  | cons x xs ih => simp [strRfind, ih]

theorem strRfind_concat_self (xs : List Char) (c : Char) :
    strRfind (xs ++ [c]) c = xs.length := by
  induction xs with
  | nil => simp [strRfind]
  | cons x xs ih =>
    have h3 : ¬ (strRfind (xs ++ [c]) c = -1) := by rw [ih]; omega
    simp only [List.cons_append, strRfind, List.length_cons, List.append_eq]
    rw [if_neg h3, ih]
    push_cast
    ring

theorem strRfind_ge (l : List Char) (c : Char) : -1 ≤ strRfind l c := by
  induction l with
  | nil => simp [strRfind]
  | cons x xs ih =>
    simp only [strRfind]
    split
    · split <;> omega
    · omega

/-! ## Lemmas about the parser -/

theorem skipWs_open_brace (r : List Char) : skipWs ('{' :: r) = '{' :: r := by
  simp [skipWs, isWs]

set_option maxHeartbeats 1600000 in
theorem parseValue_open_brace_isObj {fuel : Nat} {r rest : List Char} {v : Json}
    (h : parseValue fuel ('{' :: r) = some (v, rest)) : v.isObj = true := by
  cases fuel with
  | zero => simp [parseValue] at h
  | succ fuel =>
    simp only [parseValue] at h
    split at h
    · simp only [Option.some.injEq, Prod.mk.injEq] at h
      rw [← h.1]
      rfl
    · split at h
      · simp only [Option.some.injEq, Prod.mk.injEq] at h
        rw [← h.1]
        rfl
      · simp at h

theorem json_loads_open_brace_isObj {r : List Char} {v : Json}
    (h : json_loads ('{' :: r) = some v) : v.isObj = true := by
  unfold json_loads at h
  rw [skipWs_open_brace] at h
  split at h
  · rename_i v' rest heq
    split at h
    · exact (Option.some.inj h) ▸ parseValue_open_brace_isObj heq
    · exact Option.noConfusion h
  · exact Option.noConfusion h

theorem json_loads_nil : json_loads ([] : List Char) = none := rfl

/-! ## Claim theorems -/

/-- Claim C1: for every well-formed JSON object embedded as the sole
`{...}` span in otherwise-empty text (the first `{` and the last `}` of
the text delimit exactly the serialized object), `extract_json` applied
to that text returns a JSON value equal to the original object. The
span is `'{' :: mid`, equal to `fr ++ ['}']`, strictly parsing to the
object `Json.obj kvs`; the surrounding text contributes no `{` before
it and no `}` after it. -/
theorem C1_extract_json_roundtrip
    (A mid fr B : List Char) (kvs : List (List Nat × Json))
    (hA : '{' ∉ A) (hB : '}' ∉ B)
    (hmid : '{' :: mid = fr ++ ['}'])
    (hp : json_loads ('{' :: mid) = some (Json.obj kvs)) :
    Convert.extract_json (A ++ ('{' :: mid) ++ B) = Json.obj kvs := by
  have hlen : mid.length = fr.length := by
    have := congrArg List.length hmid
    simp at this
    omega
  have hfind : strFind (A ++ ('{' :: mid) ++ B) '{' = A.length := by
    rw [List.append_assoc]
    exact strFind_append_zero hA (strFind_cons_self _ _)
  have hrf : strRfind (A ++ ('{' :: mid) ++ B) '}' = ((A ++ fr).length : Int) := by
    rw [strRfind_append_right hB, hmid, ← List.append_assoc]
    exact strRfind_concat_self _ _
  have hslice : pySlice (A ++ ('{' :: mid) ++ B) (A.length : Int)
      (((A ++ fr).length : Int) + 1) = '{' :: mid := by
    unfold pySlice
    rw [Int.toNat_natCast, Int.toNat_natCast_add_one]
    have h1 : (A ++ ('{' :: mid)).length = (A ++ fr).length + 1 := by
      simp [hlen]
      omega
    rw [List.take_left' h1, List.drop_left]
  simp only [Convert.extract_json]
  rw [hfind, hrf]
  rw [if_pos (by constructor <;> omega)]
  rw [hslice, hp]

/-- Witness for C1 at the text `"x {\"a\": 1} y"`. -/
theorem C1_witness :
    json_loads ('{' :: chars "\"a\": 1\x7d") =
      some (Json.obj [(codes "a", Json.num 1 [] none)]) ∧
    Convert.extract_json (chars "x " ++ ('{' :: chars "\"a\": 1\x7d") ++ chars " y") =
      Json.obj [(codes "a", Json.num 1 [] none)] :=
  ⟨rfl, C1_extract_json_roundtrip (chars "x ") (chars "\"a\": 1\x7d")
    (chars "\x7b\"a\": 1") (chars " y") [(codes "a", Json.num 1 [] none)]
    (by decide) (by decide) rfl rfl⟩

/-- Claim C2: for every input text that contains no `{` character or no
`}` character, `extract_json` returns an empty object. With no `{` the
guard fails; with no `}` the end index is `rfind + 1 = 0`, the slice is
empty, strict parsing fails, and the empty object is returned. -/
theorem C2_no_brace_empty_obj (text : List Char)
    (h : '{' ∉ text ∨ '}' ∉ text) :
    Convert.extract_json text = Json.obj [] := by
  rcases h with h | h
  · have hf : strFind text '{' = -1 := strFind_not_mem h
    simp only [Convert.extract_json, hf]
    rw [if_neg (fun hc => hc.1 rfl)]
  · have hr : strRfind text '}' = -1 := strRfind_not_mem h
    simp only [Convert.extract_json, hr]
    by_cases hf : strFind text '{' = -1
    · rw [hf, if_neg (fun hc => hc.1 rfl)]
    · rw [if_pos ⟨hf, by omega⟩]
      have hempty : pySlice text (strFind text '{') ((-1 : Int) + 1) = [] := by
        unfold pySlice
        norm_num
      rw [hempty, json_loads_nil]

/-- Witness for C2 at a text with no braces at all. -/
theorem C2_witness :
    ('{' ∉ chars "plain text" ∨ '}' ∉ chars "plain text") ∧
    Convert.extract_json (chars "plain text") = Json.obj [] :=
  ⟨Or.inl (by decide), C2_no_brace_empty_obj (chars "plain text") (Or.inl (by decide))⟩

/-- Claim C3: for every input text in which the span from the first `{`
to the last `}` is not valid JSON, `extract_json` returns an empty
object and never raises to its caller. Totality over all strings is
intrinsic to the model: `extract_json` is a total function into `Json`,
and a raised `JSONDecodeError` is modelled by `json_loads` returning
`none`, which this theorem shows falls through to the empty object. -/
theorem C3_invalid_span_empty_obj (text : List Char)
    (h : json_loads (pySlice text (strFind text '{') (strRfind text '}' + 1)) = none) :
    Convert.extract_json text = Json.obj [] := by
  simp only [Convert.extract_json, h]
  split <;> rfl

/-- Witness for C3 at the trailing-comma text `{"a": 1,}`. -/
theorem C3_witness :
    json_loads (pySlice (chars "\x7b\"a\": 1,\x7d")
      (strFind (chars "\x7b\"a\": 1,\x7d") '{')
      (strRfind (chars "\x7b\"a\": 1,\x7d") '}' + 1)) = none ∧
    Convert.extract_json (chars "\x7b\"a\": 1,\x7d") = Json.obj [] :=
  ⟨rfl, C3_invalid_span_empty_obj (chars "\x7b\"a\": 1,\x7d") rfl⟩

/-- Claim C4: the extraction routine used by all three task endpoints
has identical behavior: `extract_json` in convert.py and `extract_json`
in druid_service.py are extensionally equal. -/
theorem C4_extract_json_shared (text : List Char) :
    Convert.extract_json text = DruidService.extract_json text := rfl

/-- Claim C5: for every request to `/api/analyze-event/` whose body is
valid JSON but not a JSON object, the handler returns HTTP 400 with
body `{"error": "Invalid JSON input"}`, and does not invoke the
inference provider (the response is independent of the provider, hence
no prompt is consumed). -/
theorem C5_analyze_event_rejects_non_object
    (client client' : AiClient) (request_data : Json)
    (h : request_data.isObj = false) :
    Convert.analyze_event client request_data =
      ⟨400, Json.obj [(codes "error", Json.str (codes "Invalid JSON input"))]⟩ ∧
    Convert.analyze_event client request_data = Convert.analyze_event client' request_data := by
  constructor
  · simp [Convert.analyze_event, h]
  · simp [Convert.analyze_event, h]

/-- Witness for C5 at the body `"not an object"` (a JSON string). -/
theorem C5_witness :
    (Json.str (codes "not an object")).isObj = false ∧
    Convert.analyze_event (fun _ => .ok []) (Json.str (codes "not an object")) =
      ⟨400, Json.obj [(codes "error", Json.str (codes "Invalid JSON input"))]⟩ :=
  ⟨rfl, (C5_analyze_event_rejects_non_object (fun _ => .ok [])
    (fun _ => .error []) (Json.str (codes "not an object")) rfl).1⟩

/-- Claim C6 counterexample: the claim states that when the provider
call fails, `/api/suggest-dataset-name/` responds with exactly
`{"dataset_names": ["Default_Dataset"]}`; in the code a failed call
produces `{"error": str(e)}`, which is truthy, so `response or default`
does not substitute the default. -/
theorem C6_counterexample :
    Convert.suggest_dataset_name (fun _ => .error (codes "boom")) Json.null ≠
      ⟨200, Json.obj [(codes "dataset_names",
        Json.arr [Json.str (codes "Default_Dataset")])]⟩ :=
  fun h => Bool.noConfusion
    (show true = false from
      congrArg (fun resp : Response => hasKey resp.body (codes "error")) h)

/-- Claim C6 (amended): for every request to `/api/suggest-dataset-name/`
in which the provider call succeeds but the returned text yields no
parseable JSON object (extraction returns the empty object), the
response body equals exactly `{"dataset_names": ["Default_Dataset"]}`;
a failed provider call instead yields the error object. -/
theorem C6_default_on_empty_extraction
    (client : AiClient) (event : Json) (r : List Char)
    (hok : client (Convert.suggest_dataset_name_prompt event) = .ok r)
    (hempty : Convert.extract_json r = Json.obj []) :
    Convert.suggest_dataset_name client event =
      ⟨200, Json.obj [(codes "dataset_names",
        Json.arr [Json.str (codes "Default_Dataset")])]⟩ := by
  simp only [Convert.suggest_dataset_name, Convert.get_ai_response, hok, hempty]
  simp [pyTruthy]

/-- Witness for C6 at a provider reply with no JSON in it. -/
theorem C6_witness :
    Convert.extract_json (chars "no json here") = Json.obj [] ∧
    Convert.suggest_dataset_name (fun _ => .ok (chars "no json here")) Json.null =
      ⟨200, Json.obj [(codes "dataset_names",
        Json.arr [Json.str (codes "Default_Dataset")])]⟩ :=
  ⟨rfl, C6_default_on_empty_extraction (fun _ => .ok (chars "no json here"))
    Json.null (chars "no json here") rfl rfl⟩

/-- Claim C7: for every request on any of the three endpoints, if the
inference call raises, the handler catches it and returns
`{"error": str(e)}` with HTTP status 200; the failure is never
propagated as an exception or a 5xx status. For `/api/analyze-event/`
the body must be an object (otherwise the provider is not called). -/
theorem C7_provider_error_returns_error_object :
    (∀ (client : AiClient) (d : Json) (e : List Nat),
      d.isObj = true →
      client (Convert.identify_fields_prompt d) = .error e →
      Convert.analyze_event client d = ⟨200, Json.obj [(codes "error", Json.str e)]⟩) ∧
    (∀ (client : AiClient) (d : Json) (e : List Nat),
      client (Convert.suggest_dataset_name_prompt d) = .error e →
      Convert.suggest_dataset_name client d =
        ⟨200, Json.obj [(codes "error", Json.str e)]⟩) ∧
    (∀ (client : AiClient) (d : Json) (e : List Nat),
      client (DruidService.rollups_prompt d) = .error e →
      Convert.suggest_druid_rollups client d =
        ⟨200, Json.obj [(codes "error", Json.str e)]⟩) := by
  refine ⟨fun client d e hobj herr => ?_, fun client d e herr => ?_,
    fun client d e herr => ?_⟩
  · simp [Convert.analyze_event, hobj, Convert.identify_fields,
      Convert.get_ai_response, herr]
  · simp [Convert.suggest_dataset_name, Convert.get_ai_response, herr, pyTruthy]
  · simp [Convert.suggest_druid_rollups,
      DruidService.suggest_druid_rollups_and_ingestion_spec, herr]

/-- Witness for C7: a provider that always raises `boom`. -/
theorem C7_witness :
    (Json.obj []).isObj = true ∧
    Convert.analyze_event (fun _ => .error (codes "boom")) (Json.obj []) =
      ⟨200, Json.obj [(codes "error", Json.str (codes "boom"))]⟩ ∧
    Convert.suggest_dataset_name (fun _ => .error (codes "boom")) Json.null =
      ⟨200, Json.obj [(codes "error", Json.str (codes "boom"))]⟩ ∧
    Convert.suggest_druid_rollups (fun _ => .error (codes "boom")) Json.null =
      ⟨200, Json.obj [(codes "error", Json.str (codes "boom"))]⟩ :=
  ⟨rfl,
   C7_provider_error_returns_error_object.1 (fun _ => .error (codes "boom"))
     (Json.obj []) (codes "boom") rfl rfl,
   C7_provider_error_returns_error_object.2.1 (fun _ => .error (codes "boom"))
     Json.null (codes "boom") rfl,
   C7_provider_error_returns_error_object.2.2 (fun _ => .error (codes "boom"))
     Json.null (codes "boom") rfl⟩

/-- Claim C8: prompt construction is pure and deterministic: for every
task kind and payload, equal `(task, payload)` pairs produce identical
prompt strings. Purity is intrinsic to the model: `buildPrompt` is a
function with no effects. -/
theorem C8_prompt_builder_deterministic
    (t t' : TaskKind) (p p' : Json) (ht : t = t') (hp : p = p') :
    buildPrompt t p = buildPrompt t' p' := by
  rw [ht, hp]

/-- Witness for C8 at the dataset-naming task and an empty object. -/
theorem C8_witness :
    TaskKind.datasetNaming = TaskKind.datasetNaming ∧
    (Json.obj [] : Json) = Json.obj [] ∧
    buildPrompt TaskKind.datasetNaming (Json.obj []) =
      buildPrompt TaskKind.datasetNaming (Json.obj []) :=
  ⟨rfl, rfl, C8_prompt_builder_deterministic TaskKind.datasetNaming
    TaskKind.datasetNaming (Json.obj []) (Json.obj []) rfl rfl⟩

/-- Claim C9 counterexample: the claim states that whenever extraction
succeeds with a non-empty value, the `/api/suggest-druid-rollups/`
response contains both `rollup_suggestions` and `druid_ingestion_spec`;
but a model reply of `{"foo": 1}` extracts successfully (truthy) while
the response body lacks `rollup_suggestions` — the code does not
enforce the documented shape. -/
theorem C9_counterexample :
    pyTruthy (DruidService.suggest_druid_rollups_and_ingestion_spec
      (fun _ => .ok (chars "\x7b\"foo\": 1\x7d")) Json.null) = true ∧
    hasKey (Convert.suggest_druid_rollups
      (fun _ => .ok (chars "\x7b\"foo\": 1\x7d")) Json.null).body
      (codes "rollup_suggestions") = false :=
  ⟨rfl, rfl⟩

/-- Claim C9 (amended): for every request to `/api/suggest-druid-rollups/`
in which the provider call succeeds, the response is status 200 with
body exactly the extracted JSON value of the reply; the documented
template keys appear only if the model reply contains them. -/
theorem C9_response_is_extracted_value
    (client : AiClient) (event : Json) (r : List Char)
    (hok : client (DruidService.rollups_prompt event) = .ok r) :
    Convert.suggest_druid_rollups client event =
      ⟨200, DruidService.extract_json r⟩ := by
  simp only [Convert.suggest_druid_rollups,
    DruidService.suggest_druid_rollups_and_ingestion_spec, hok]

/-- Witness for C9 at the reply `{}`. -/
theorem C9_witness :
    Convert.suggest_druid_rollups (fun _ => .ok (chars "\x7b\x7d")) Json.null =
      ⟨200, DruidService.extract_json (chars "\x7b\x7d")⟩ :=
  C9_response_is_extracted_value (fun _ => .ok (chars "\x7b\x7d")) Json.null
    (chars "\x7b\x7d") rfl

/-- Claim C10: for every input string, `extract_json` (both copies)
returns a JSON object, never an array, string, number, boolean or null;
and the guard on the end index always passes on its second conjunct
since `rfind + 1` is never `-1` (when there is a `{` but no `}`, or the
first `{` follows the last `}`, the slice is empty, strict parsing
fails, and the empty object is returned). -/
theorem C10_extract_json_always_obj (text : List Char) :
    (Convert.extract_json text).isObj = true ∧
    (DruidService.extract_json text).isObj = true ∧
    strRfind text '}' + 1 ≠ -1 := by
  have hg : strRfind text '}' + 1 ≠ -1 := by
    have := strRfind_ge text '}'
    omega
  have hC : (Convert.extract_json text).isObj = true := by
    simp only [Convert.extract_json]
    by_cases hcond : strFind text '{' ≠ -1 ∧ strRfind text '}' + 1 ≠ -1
    · rw [if_pos hcond]
      obtain ⟨a, t, ha, hd⟩ := strFind_drop hcond.1
      have hslice : pySlice text (strFind text '{') (strRfind text '}' + 1) =
          List.take ((strRfind text '}' + 1).toNat - a) ('{' :: t) := by
        unfold pySlice
        rw [ha, Int.toNat_natCast, List.drop_take, hd]
      rw [hslice]
      rcases hk : (strRfind text '}' + 1).toNat - a with _ | k
      · rw [List.take_zero, json_loads_nil]
        rfl
      · rw [List.take_succ_cons]
        rcases hload : json_loads ('{' :: List.take k t) with _ | v
        · rfl
        · exact json_loads_open_brace_isObj hload
    · rw [if_neg hcond]
      rfl
  exact ⟨hC, hC, hg⟩
